import Mathlib

/-!
# Verification of `scripts/auto-preview.js`

A shallow embedding of the page-preview script: the single-page pipeline
`previewAndCapture`, the batch loop `previewMultiplePages` and the command
line entry point.  The collaborators the script talks to (the automation
server, the file system, the clock) are not part of the repository; a run
of the pipeline is therefore evaluated against a record of the answers
those collaborators give, and every call the script makes is logged in a
trace so that ordering properties can be stated.
-/

namespace AutoPreview

/-! ## Data model -/

/-- JavaScript strings, represented by the list of their characters. -/
abbrev Str := List Char

/-- An `Error` object thrown by a stage: the library calls of the pipeline
(`miniprogram-automator`, `fs`) raise `Error` instances, which carry a
`message` and a `stack`. -/
structure JsError where
  message : Str
  stack : Str
deriving DecidableEq, Repr

/-- The handle `automator.connect` resolves to. -/
structure MiniProgram where
  wsEndpoint : Str
deriving DecidableEq, Repr

/-- The snapshot `page.data()` resolves to, kept as its serialised text. -/
structure PageData where
  json : Str
deriving DecidableEq, Repr

/-- One element handle of the array `page.$$(selector)` resolves to. -/
structure ElementHandle where
  id : Nat
deriving DecidableEq, Repr

/-- The object literal `elementStats` of lines 84-90. -/
structure ElementStats where
  view : Nat
  text : Nat
  button : Nat
  image : Nat
  total : Nat
deriving DecidableEq, Repr

/-- The object literal `reportData` of lines 108-114. -/
structure ReportData where
  timestamp : Str
  pagePath : Str
  screenshotPath : Str
  pageData : PageData
  elementStats : ElementStats
deriving DecidableEq, Repr

/-- The object `previewAndCapture` returns.  A field that the returned
object literal does not have is `none`. -/
structure PreviewResult where
  success : Bool
  pagePath : Option Str
  screenshotPath : Option Str
  dataPath : Option Str
  elementStats : Option ElementStats
  pageData : Option PageData
  error : Option Str
  stack : Option Str
deriving DecidableEq, Repr

/-- The calls the script makes to its collaborators, in the order made. -/
inductive Event where
  | connect (wsEndpoint : Str)
  | navigateTo (pagePath : Str)
  | waitFor (ms : Nat)
  | existsSync (dir : Str)
  | mkdirSync (dir : Str)
  | screenshot (path : Str)
  | data
  | query (selector : Str)
  | writeFileSync (path : Str) (report : ReportData)
  | connRefusedHint
  | close (mp : MiniProgram)
  | setTimeout (ms : Nat)
deriving DecidableEq, Repr

/-- What the collaborators answer during one run of `previewAndCapture`,
one field per call site, in source order: a call returns (`Except.ok`) or
throws (`Except.error`).  `now1` and `now2` are the readings of `Date.now()`
at lines 59 and 106, `isoTime` the text of line 109, `writeFileSync` the
outcome of line 116.  A stage that is not reached does not consult its
field. -/
structure Outcomes where
  connect : Except JsError MiniProgram
  navigateTo : Except JsError Unit
  waitFor : Except JsError Unit
  now1 : Int
  existsSync : Bool
  mkdirSync : Except JsError Unit
  screenshot : Except JsError Unit
  data : Except JsError PageData
  view : Except JsError (List ElementHandle)
  text : Except JsError (List ElementHandle)
  button : Except JsError (List ElementHandle)
  image : Except JsError (List ElementHandle)
  now2 : Int
  isoTime : Str
  writeFileSync : Except JsError Unit
  close : Except JsError Unit

/-! ## Strings of the JavaScript runtime -/

/-- Number-to-string conversion of an integral number, as performed by a
template literal: decimal digits, with a leading minus sign when negative.
This is the conversion for magnitudes up to `2 ^ 53`, which covers every
value `Date.now()` returns; beyond that JavaScript prints rounded digits or
an exponent. -/
def numToString : Int → Str
  | Int.ofNat n => Nat.toDigits 10 n
  | Int.negSucc n => '-' :: Nat.toDigits 10 (n + 1)

/-- The test `haystack.includes(needle)`. -/
def includes (haystack needle : Str) : Bool :=
  haystack.tails.any (fun t => needle.isPrefixOf t)

/-- The expression `pagePath.replace(/\//g, '_')` of lines 59 and 106. -/
def sanitize (pagePath : Str) : Str :=
  pagePath.map (fun c => if c = '/' then '_' else c)

/-- The template literal of line 59. -/
def screenshotFilename (pagePath : Str) (now : Int) : Str :=
  sanitize pagePath ++ '_' :: numToString now ++ ".png".data

/-- The template literal of line 106. -/
def dataFilename (pagePath : Str) (now : Int) : Str :=
  sanitize pagePath ++ '_' :: numToString now ++ ".json".data

/-- The template literal of line 43. -/
def wsEndpoint (wsPort : Int) : Str :=
  "ws://localhost:".data ++ numToString wsPort

/-! ## The single-page pipeline -/

/-- The mutable state of one run: the variable `miniProgram` of line 37
and the trace of calls made so far. -/
structure Ctx where
  miniProgram : Option MiniProgram
  trace : List Event
deriving DecidableEq, Repr

/-- A computation that may throw, over the state of a run. -/
def Eff (α : Type) : Type := Ctx → Ctx × Except JsError α

/-- Sequencing: a thrown error skips the rest of the block. -/
def Eff.bind {α β : Type} (m : Eff α) (f : α → Eff β) : Eff β := fun c =>
  match m c with
  | (c1, Except.ok a) => f a c1
  | (c1, Except.error e) => (c1, Except.error e)

instance : Monad Eff where
  pure a := fun c => (c, Except.ok a)
  bind := Eff.bind

/-- An awaited or synchronous call to a collaborator: the call is logged,
then it returns or throws as the collaborator answers. -/
def call {α : Type} (ev : Event) (answer : Except JsError α) : Eff α := fun c =>
  (⟨c.miniProgram, c.trace ++ [ev]⟩, answer)

/-- The assignment `miniProgram = ...` of line 42. -/
def setMiniProgram (mp : MiniProgram) : Eff Unit := fun c =>
  (⟨some mp, c.trace⟩, Except.ok ())

/-- The body of the `try` block, lines 40-127.  The argument `join` stands
for `path.join` of the Node.js runtime. -/
def tryBlock (join : Str → Str → Str) (pagePath outputDir : Str) (wsPort : Int)
    (o : Outcomes) : Eff PreviewResult := do
  let mp ← call (Event.connect (wsEndpoint wsPort)) o.connect
  setMiniProgram mp
  call (Event.navigateTo pagePath) o.navigateTo
  call (Event.waitFor 1500) o.waitFor
  let screenshotFilename := screenshotFilename pagePath o.now1
  let screenshotPath := join outputDir screenshotFilename
  let dirExists ← call (Event.existsSync outputDir) (Except.ok o.existsSync)
  if !dirExists then
    call (Event.mkdirSync outputDir) o.mkdirSync
  call (Event.screenshot screenshotPath) o.screenshot
  let pageData ← call Event.data o.data
  let viewElements ← call (Event.query "view".data) o.view
  let textElements ← call (Event.query "text".data) o.text
  let buttonElements ← call (Event.query "button".data) o.button
  let imageElements ← call (Event.query "image".data) o.image
  let elementStats : ElementStats :=
    { view := viewElements.length
      text := textElements.length
      button := buttonElements.length
      image := imageElements.length
      total := viewElements.length + textElements.length + buttonElements.length
        + imageElements.length }
  let dataFilename := dataFilename pagePath o.now2
  let dataPath := join outputDir dataFilename
  let reportData : ReportData :=
    { timestamp := o.isoTime
      pagePath := pagePath
      screenshotPath := screenshotPath
      pageData := pageData
      elementStats := elementStats }
  call (Event.writeFileSync dataPath reportData) o.writeFileSync
  return { success := true
           pagePath := some pagePath
           screenshotPath := some screenshotPath
           dataPath := some dataPath
           elementStats := some elementStats
           pageData := some pageData
           error := none
           stack := none }

/-- The object literal returned at lines 145-149. -/
def failureResult (error : JsError) : PreviewResult :=
  { success := false
    pagePath := none
    screenshotPath := none
    dataPath := none
    elementStats := none
    pageData := none
    error := some error.message
    stack := some error.stack }

/-- The `catch` block, lines 129-149: the hints of lines 134-143 are printed
when the message mentions `ECONNREFUSED`, then the failure object is
returned. -/
def catchBlock (error : JsError) (c : Ctx) : Ctx × PreviewResult :=
  let c1 : Ctx :=
    if includes error.message "ECONNREFUSED".data then
      ⟨c.miniProgram, c.trace ++ [Event.connRefusedHint]⟩
    else c
  (c1, failureResult error)

/-- The `finally` block, lines 150-160: the connection is closed when one
was opened, and an error thrown by `close` is discarded. -/
def finallyBlock (o : Outcomes) (c : Ctx) : Ctx :=
  match c.miniProgram with
  | some mp =>
    match o.close with
    | Except.ok _ => ⟨c.miniProgram, c.trace ++ [Event.close mp]⟩
    | Except.error _ => ⟨c.miniProgram, c.trace ++ [Event.close mp]⟩
  | none => c

/-- What one run of `previewAndCapture` leaves behind: the value the
returned promise resolves to and the calls made. -/
structure Run where
  result : PreviewResult
  trace : List Event
deriving DecidableEq, Repr

/-- The function `previewAndCapture`, lines 28-161. -/
def previewAndCapture (join : Str → Str → Str) (pagePath outputDir : Str)
    (wsPort : Int) (o : Outcomes) : Run :=
  let c0 : Ctx := ⟨none, []⟩
  match tryBlock join pagePath outputDir wsPort o c0 with
  | (c1, Except.ok result) =>
    let c2 := finallyBlock o c1
    ⟨result, c2.trace⟩
  | (c1, Except.error error) =>
    let (c2, result) := catchBlock error c1
    let c3 := finallyBlock o c2
    ⟨result, c3.trace⟩

/-! ## The batch loop -/

/-- What `previewMultiplePages` leaves behind: the array it resolves to,
the two counts of the summary it prints (lines 188-189) and the calls
made. -/
structure BatchRun where
  results : List PreviewResult
  successCount : Nat
  failCount : Nat
  trace : List Event
deriving DecidableEq, Repr

/-- The `for` loop of lines 174-185.  The list argument holds the pages not
yet visited, `pages[i], pages[i+1], ...`; `length` is `pages.length`; the
pair carries the array `results` and the calls made so far.  The `i`-th
iteration is answered by `env i`. -/
def batchLoop (join : Str → Str → Str) (outputDir : Str) (wsPort : Int)
    (env : Nat → Outcomes) (length : Nat) :
    List Str → Nat → List PreviewResult × List Event → List PreviewResult × List Event
  | [], _, acc => acc
  | pagePath :: rest, i, (results, trace) =>
    let run := previewAndCapture join pagePath outputDir wsPort (env i)
    let results := results ++ [run.result]
    let trace := trace ++ run.trace
    let trace :=
      if (i : Int) < (length : Int) - 1 then trace ++ [Event.setTimeout 1000] else trace
    batchLoop join outputDir wsPort env length rest (i + 1) (results, trace)

/-- The function `previewMultiplePages`, lines 169-200. -/
def previewMultiplePages (join : Str → Str → Str) (pages : List Str) (outputDir : Str)
    (wsPort : Int) (env : Nat → Outcomes) : BatchRun :=
  let (results, trace) := batchLoop join outputDir wsPort env pages.length pages 0 ([], [])
  let successCount := (results.filter (fun r => r.success)).length
  let failCount := results.length - successCount
  ⟨results, successCount, failCount, trace⟩

/-! ## The command line -/

/-- The characters `String.prototype.trim` removes: the white space and line
terminator code points of ECMAScript. -/
def jsWhiteSpace (c : Char) : Bool :=
  decide (c.toNat ∈ [0x9, 0xA, 0xB, 0xC, 0xD, 0x20, 0xA0, 0x1680, 0x2028, 0x2029,
    0x202F, 0x205F, 0x3000, 0xFEFF]) || (decide (0x2000 ≤ c.toNat) && decide (c.toNat ≤ 0x200A))

/-- The method `trim`. -/
def trim (s : Str) : Str :=
  ((s.dropWhile jsWhiteSpace).reverse.dropWhile jsWhiteSpace).reverse

/-- The method `split` with a one-character separator. -/
def split (sep : Char) : Str → List Str
  | [] => [[]]
  | c :: cs =>
    if c = sep then [] :: split sep cs
    else
      match split sep cs with
      | [] => [[c]]
      | s :: ss => (c :: s) :: ss

/-- What the command line entry point leaves behind: the code passed to
`process.exit` and the calls made. -/
structure CliRun where
  exitCode : Nat
  trace : List Event
deriving DecidableEq, Repr

/-- The expression `args[1] || './screenshots'` of line 240; `more` is
`args.slice(1)`.  A missing or empty argument gives the default: the
directory is optional, as the usage text of lines 209-213 says (the header
comment of lines 10-11 lists it without brackets). -/
def outputDirArg (more : List Str) : Str :=
  match more with
  | dir :: _ => if dir = [] then "./screenshots".data else dir
  | [] => "./screenshots".data

/-- The expression `parseInt(args[2]) || 9420` of line 241; `more` is
`args.slice(1)`.  The argument `parseInt` stands for the runtime function of
that name, `none` being `NaN`; a missing argument, `NaN` and `0` give the
default. -/
def wsPortArg (parseInt : Str → Option Int) (more : List Str) : Int :=
  match more with
  | _ :: port :: _ =>
    match parseInt port with
    | some n => if n = 0 then 9420 else n
    | none => 9420
  | _ => 9420

/-- The command line entry point, lines 203-272, run on `process.argv.slice(2)`.
The two `.catch` handlers are not represented: neither `previewAndCapture`
nor `previewMultiplePages` rejects. -/
def cliMain (join : Str → Str → Str) (parseInt : Str → Option Int) (args : List Str)
    (env : Nat → Outcomes) : CliRun :=
  match args with
  | [] => ⟨0, []⟩
  | pagePathArg :: more =>
    if pagePathArg = "--help".data ∨ pagePathArg = "-h".data then ⟨0, []⟩
    else
      let outputDir := outputDirArg more
      let wsPort := wsPortArg parseInt more
      if includes pagePathArg ",".data then
        let pages := (split ',' pagePathArg).map trim
        let batch := previewMultiplePages join pages outputDir wsPort env
        let allSuccess := batch.results.all (fun r => r.success)
        ⟨if allSuccess then 0 else 1, batch.trace⟩
      else
        let run := previewAndCapture join pagePathArg outputDir wsPort (env 0)
        ⟨if run.result.success then 0 else 1, run.trace⟩

/-! ## Vocabulary of the statements -/

/-- The connection was opened (line 42 returned). -/
def Connected (o : Outcomes) : Prop := ∃ mp, o.connect = Except.ok mp

/-- The page was opened (line 49 returned). -/
def Navigated (o : Outcomes) : Prop := Connected o ∧ o.navigateTo = Except.ok ()

/-- The settle wait elapsed (line 54 returned). -/
def Settled (o : Outcomes) : Prop := Navigated o ∧ o.waitFor = Except.ok ()

/-- The output directory is there (lines 63-65 returned). -/
def DirReady (o : Outcomes) : Prop :=
  Settled o ∧ (o.existsSync = true ∨ o.mkdirSync = Except.ok ())

/-- The screenshot was taken (line 67 returned). -/
def Captured (o : Outcomes) : Prop := DirReady o ∧ o.screenshot = Except.ok ()

/-- The page data was read (line 76 returned). -/
def DataRead (o : Outcomes) : Prop := Captured o ∧ ∃ pd, o.data = Except.ok pd

/-- The `view` elements were queried (line 79 returned). -/
def ViewQueried (o : Outcomes) : Prop := DataRead o ∧ ∃ l, o.view = Except.ok l

/-- The `text` elements were queried (line 80 returned). -/
def TextQueried (o : Outcomes) : Prop := ViewQueried o ∧ ∃ l, o.text = Except.ok l

/-- The `button` elements were queried (line 81 returned). -/
def ButtonQueried (o : Outcomes) : Prop := TextQueried o ∧ ∃ l, o.button = Except.ok l

/-- The `image` elements were queried (line 82 returned). -/
def ImageQueried (o : Outcomes) : Prop := ButtonQueried o ∧ ∃ l, o.image = Except.ok l

/-- The error `e` is raised by a stage of the pipeline: the stage is
reached, every stage before it having returned, and it throws `e`. -/
inductive Raises (o : Outcomes) (e : JsError) : Prop where
  | connect : o.connect = Except.error e → Raises o e
  | navigateTo : Connected o → o.navigateTo = Except.error e → Raises o e
  | waitFor : Navigated o → o.waitFor = Except.error e → Raises o e
  | mkdirSync : Settled o → o.existsSync = false → o.mkdirSync = Except.error e → Raises o e
  | screenshot : DirReady o → o.screenshot = Except.error e → Raises o e
  | data : Captured o → o.data = Except.error e → Raises o e
  | view : DataRead o → o.view = Except.error e → Raises o e
  | text : ViewQueried o → o.text = Except.error e → Raises o e
  | button : TextQueried o → o.button = Except.error e → Raises o e
  | image : ButtonQueried o → o.image = Except.error e → Raises o e
  | writeFileSync : ImageQueried o → o.writeFileSync = Except.error e → Raises o e

/-- The name a screenshot file name turns into when its trailing `.png`
is replaced by `.json`. -/
def pngToJson (name : Str) : Str :=
  name.take (name.length - 4) ++ ".json".data

/-- The number a string of decimal digits denotes. -/
def digitsValue (s : Str) : Nat :=
  s.foldl (fun acc c => 10 * acc + (c.toNat - 48)) 0

/-- The integer a numeral with an optional leading minus sign denotes. -/
def numeralValue : Str → Int
  | '-' :: s => - (digitsValue s : Int)
  | s => (digitsValue s : Int)

/-- The calls of the `i`-th iteration of the loop: the run of the page, then
the pause of line 183 unless the page is the last. -/
def iterationTrace (join : Str → Str → Str) (d : Str) (port : Int) (env : Nat → Outcomes)
    (length : Nat) (ip : Nat × Str) : List Event :=
  (previewAndCapture join ip.2 d port (env ip.1)).trace ++
    if (ip.1 : Int) < (length : Int) - 1 then [Event.setTimeout 1000] else []

/-! ## Sample runs -/

/-- A stand-in for `path.join`, for a directory given as a plain relative
name such as `out`, with or without a leading `./`, and a file name without
separator: the leading `./` is dropped, as normalisation does, and the two
parts are joined by `/`. -/
def joinPlain (dir name : Str) : Str :=
  match dir with
  | '.' :: '/' :: rest => rest ++ '/' :: name
  | _ => dir ++ '/' :: name

/-- A stand-in for `parseInt` that reads no number. -/
def parseNone (_ : Str) : Option Int := none

/-- Answers of a run in which every stage returns; the clock advances
between the two readings. -/
def okOutcomes : Outcomes :=
  { connect := Except.ok ⟨"ws://localhost:9420".data⟩
    navigateTo := Except.ok ()
    waitFor := Except.ok ()
    now1 := 1700000000000
    existsSync := false
    mkdirSync := Except.ok ()
    screenshot := Except.ok ()
    data := Except.ok ⟨"\x7b\x7d".data⟩
    view := Except.ok [⟨0⟩, ⟨1⟩]
    text := Except.ok [⟨2⟩]
    button := Except.ok []
    image := Except.ok [⟨3⟩]
    now2 := 1700000000850
    isoTime := "2023-11-14T22:13:20.850Z".data
    writeFileSync := Except.ok ()
    close := Except.ok () }

/-- The error `automator.connect` of `miniprogram-automator` rejects with
when nothing listens on port 9420. -/
def refusedError : JsError :=
  ⟨("Failed connecting to ws://localhost:9420, check if target project window is "
      ++ "opened with automation enabled").data,
   ("Error: Failed connecting to ws://localhost:9420, check if target project window is "
      ++ "opened with automation enabled").data⟩

/-- Answers of a run in which nothing listens on the port. -/
def refusedOutcomes : Outcomes :=
  { okOutcomes with connect := Except.error refusedError }

/-- Answers of a run in which the page path does not exist. -/
def badPathOutcomes : Outcomes :=
  { okOutcomes with
    navigateTo := Except.error ⟨"page not found".data, "Error: page not found".data⟩ }

/-- Answers of a run in which closing the connection fails. -/
def closeFailsOutcomes : Outcomes :=
  { okOutcomes with
    close := Except.error ⟨"socket hang up".data, "Error: socket hang up".data⟩ }

/-- A batch in which the first page succeeds and the later ones are refused. -/
def firstOnlyEnv (i : Nat) : Outcomes :=
  if i = 0 then okOutcomes else refusedOutcomes

/-! # Lemmas -/

/-! ## Decimal numerals -/

theorem digitChar_value (k : Nat) (hk : k < 10) : (Nat.digitChar k).toNat - 48 = k := by
  interval_cases k <;> rfl

theorem digitChar_isDigit (k : Nat) (hk : k < 10) : (Nat.digitChar k).isDigit = true := by
  interval_cases k <;> rfl

theorem toDigitsCore_acc (fuel : Nat) : ∀ (n : Nat) (acc : List Char),
    Nat.toDigitsCore 10 fuel n acc = Nat.toDigitsCore 10 fuel n [] ++ acc := by
  induction fuel with
  | zero => intro n acc; simp [Nat.toDigitsCore]
  | succ fuel ih =>
    intro n acc
    simp only [Nat.toDigitsCore]
    split
    · simp
    · rw [ih (n / 10) (Nat.digitChar (n % 10) :: acc), ih (n / 10) [Nat.digitChar (n % 10)]]
      simp

theorem digitsValue_snoc (s : Str) (c : Char) :
    digitsValue (s ++ [c]) = 10 * digitsValue s + (c.toNat - 48) := by
  simp [digitsValue, List.foldl_append]

theorem digitsValue_toDigitsCore (fuel : Nat) : ∀ n : Nat, n < fuel →
    digitsValue (Nat.toDigitsCore 10 fuel n []) = n := by
  induction fuel with
  | zero => intro n h; omega
  | succ fuel ih =>
    intro n h
    simp only [Nat.toDigitsCore]
    split
    · rename_i h0
      have hlt : n % 10 < 10 := Nat.mod_lt _ (by decide)
      have := digitsValue_snoc [] (Nat.digitChar (n % 10))
      simp only [List.nil_append] at this
      rw [this, digitChar_value _ hlt]
      simp [digitsValue]
      omega
    · rename_i h0
      rw [toDigitsCore_acc, digitsValue_snoc, digitChar_value _ (Nat.mod_lt _ (by decide)),
        ih (n / 10) (by omega)]
      omega

theorem digitsValue_toDigits (n : Nat) : digitsValue (Nat.toDigits 10 n) = n :=
  digitsValue_toDigitsCore (n + 1) n (Nat.lt_succ_self n)

theorem toDigitsCore_isDigit (fuel : Nat) : ∀ (n : Nat) (acc : List Char),
    (∀ c ∈ acc, c.isDigit = true) →
    ∀ c ∈ Nat.toDigitsCore 10 fuel n acc, c.isDigit = true := by
  induction fuel with
  | zero => intro n acc h; simpa [Nat.toDigitsCore] using h
  | succ fuel ih =>
    intro n acc h
    have hd : ∀ c ∈ Nat.digitChar (n % 10) :: acc, c.isDigit = true := by
      intro c hc
      rcases List.mem_cons.mp hc with rfl | hc
      · exact digitChar_isDigit _ (Nat.mod_lt _ (by decide))
      · exact h c hc
    simp only [Nat.toDigitsCore]
    split
    · exact hd
    · exact ih _ _ hd

theorem toDigits_isDigit (n : Nat) : ∀ c ∈ Nat.toDigits 10 n, c.isDigit = true :=
  toDigitsCore_isDigit (n + 1) n [] (by simp)

theorem toDigits_ne_nil (n : Nat) : Nat.toDigits 10 n ≠ [] := by
  intro h
  have hv := digitsValue_toDigits n
  have h1 : Nat.toDigitsCore 10 (n + 1) n [] = [] := h
  simp only [Nat.toDigitsCore] at h1
  split at h1
  · simp at h1
  · rw [toDigitsCore_acc] at h1
    simp at h1

theorem toDigits_head_ne_minus (n : Nat) (s : Str) : Nat.toDigits 10 n ≠ '-' :: s := by
  intro h
  have := toDigits_isDigit n '-' (by rw [h]; exact List.mem_cons_self _ _)
  exact absurd this (by decide)

/-- The numeral printed for an integer denotes that integer. -/
theorem numeralValue_numToString (t : Int) : numeralValue (numToString t) = t := by
  cases t with
  | ofNat n =>
    have hv := digitsValue_toDigits n
    have hne := toDigits_head_ne_minus n
    simp only [numToString]
    generalize Nat.toDigits 10 n = s at hv hne
    unfold numeralValue
    split
    · rename_i s' ; exact absurd rfl (hne s')
    · rw [hv]; rfl
  | negSucc n =>
    simp only [numToString, numeralValue, digitsValue_toDigits]
    rfl

theorem numToString_injective (t1 t2 : Int) (h : numToString t1 = numToString t2) : t1 = t2 := by
  rw [← numeralValue_numToString t1, ← numeralValue_numToString t2, h]

/-- Every character of a printed integer is a decimal digit or the minus sign. -/
theorem numToString_chars (t : Int) : ∀ c ∈ numToString t, c.isDigit = true ∨ c = '-' := by
  cases t with
  | ofNat n => intro c hc; exact Or.inl (toDigits_isDigit n c hc)
  | negSucc n =>
    intro c hc
    rcases List.mem_cons.mp hc with rfl | hc
    · exact Or.inr rfl
    · exact Or.inl (toDigits_isDigit _ c hc)

theorem numToString_no_slash (t : Int) : '/' ∉ numToString t := by
  intro h
  rcases numToString_chars t _ h with h | h
  · exact absurd h (by decide)
  · exact absurd h (by decide)

theorem numToString_no_underscore (t : Int) : '_' ∉ numToString t := by
  intro h
  rcases numToString_chars t _ h with h | h
  · exact absurd h (by decide)
  · exact absurd h (by decide)

/-! ## File names -/

theorem sanitize_length (p : Str) : (sanitize p).length = p.length := by
  simp [sanitize]

theorem sanitize_no_slash (p : Str) : '/' ∉ sanitize p := by
  intro h
  simp only [sanitize, List.mem_map] at h
  obtain ⟨c, _, hc⟩ := h
  by_cases hs : c = '/'
  · rw [if_pos hs] at hc; exact absurd hc (by decide)
  · rw [if_neg hs] at hc; exact hs hc

theorem sanitize_getElem? (p : Str) (i : Nat) :
    (sanitize p)[i]? = (p[i]?).map (fun c => if c = '/' then '_' else c) := by
  simp [sanitize]

/-- A string is cut in one way only at its first occurrence of a character. -/
theorem cut_first_unique {s : Char} : ∀ (u v a b : Str), s ∉ u → s ∉ v →
    u ++ s :: a = v ++ s :: b → u = v ∧ a = b := by
  intro u
  induction u with
  | nil =>
    intro v a b _ hv h
    cases v with
    | nil => simpa using h
    | cons c v =>
      simp only [List.nil_append, List.cons_append, List.cons.injEq] at h
      exact absurd (List.mem_cons_self _ _) (h.1 ▸ hv)
  | cons c u ih =>
    intro v a b hu hv h
    cases v with
    | nil =>
      simp only [List.nil_append, List.cons_append, List.cons.injEq] at h
      exact absurd (List.mem_cons_self _ _) (h.1 ▸ hu)
    | cons c' v =>
      simp only [List.cons_append, List.cons.injEq] at h
      have := ih v a b (fun hm => hu (List.mem_cons_of_mem _ hm))
        (fun hm => hv (List.mem_cons_of_mem _ hm)) h.2
      exact ⟨by rw [h.1, this.1], this.2⟩

/-- A string is cut in one way only at its last occurrence of a character. -/
theorem cut_last_unique {s : Char} (x y a b : Str) (hx : s ∉ x) (hy : s ∉ y)
    (h : a ++ s :: x = b ++ s :: y) : a = b ∧ x = y := by
  have hr : x.reverse ++ s :: a.reverse = y.reverse ++ s :: b.reverse := by
    have := congrArg List.reverse h
    simpa using this
  have := cut_first_unique x.reverse y.reverse a.reverse b.reverse
    (by simpa using hx) (by simpa using hy) hr
  exact ⟨List.reverse_injective this.2, List.reverse_injective this.1⟩

/-- The stem of a file name determines the sanitised path and the clock
reading it was built from. -/
theorem stem_injective (p1 p2 : Str) (t1 t2 : Int)
    (h : sanitize p1 ++ '_' :: numToString t1 = sanitize p2 ++ '_' :: numToString t2) :
    sanitize p1 = sanitize p2 ∧ t1 = t2 := by
  have := cut_last_unique _ _ _ _ (numToString_no_underscore t1)
    (numToString_no_underscore t2) h
  exact ⟨this.1, numToString_injective t1 t2 this.2⟩

theorem screenshotFilename_stem (p : Str) (t : Int) :
    screenshotFilename p t = (sanitize p ++ '_' :: numToString t) ++ ".png".data := by
  simp [screenshotFilename]

theorem dataFilename_stem (p : Str) (t : Int) :
    dataFilename p t = (sanitize p ++ '_' :: numToString t) ++ ".json".data := by
  simp [dataFilename]

theorem pngToJson_screenshotFilename (p : Str) (t : Int) :
    pngToJson (screenshotFilename p t) = dataFilename p t := by
  rw [screenshotFilename_stem, dataFilename_stem, pngToJson]
  congr 1
  apply List.take_left'
  simp
  omega

theorem screenshotFilename_injective (p1 p2 : Str) (t1 t2 : Int)
    (h : screenshotFilename p1 t1 = screenshotFilename p2 t2) :
    sanitize p1 = sanitize p2 ∧ t1 = t2 := by
  rw [screenshotFilename_stem, screenshotFilename_stem] at h
  exact stem_injective p1 p2 t1 t2 (List.append_cancel_right h)

theorem dataFilename_injective (p1 p2 : Str) (t1 t2 : Int)
    (h : dataFilename p1 t1 = dataFilename p2 t2) :
    sanitize p1 = sanitize p2 ∧ t1 = t2 := by
  rw [dataFilename_stem, dataFilename_stem] at h
  exact stem_injective p1 p2 t1 t2 (List.append_cancel_right h)

theorem screenshotFilename_no_slash (p : Str) (t : Int) : '/' ∉ screenshotFilename p t := by
  intro h
  simp only [screenshotFilename, List.mem_append, List.mem_cons] at h
  rcases h with (h | h | h) | h
  · exact sanitize_no_slash p h
  · exact absurd h (by decide)
  · exact numToString_no_slash t h
  · revert h; decide

theorem dataFilename_no_slash (p : Str) (t : Int) : '/' ∉ dataFilename p t := by
  intro h
  simp only [dataFilename, List.mem_append, List.mem_cons] at h
  rcases h with (h | h | h) | h
  · exact sanitize_no_slash p h
  · exact absurd h (by decide)
  · exact numToString_no_slash t h
  · revert h; decide

/-! ## The pipeline, step by step -/

@[simp] theorem Eff.bind_apply {α β : Type} (m : Eff α) (f : α → Eff β) (c : Ctx) :
    (m >>= f) c = match m c with
      | (c1, Except.ok a) => f a c1
      | (c1, Except.error e) => (c1, Except.error e) := rfl

@[simp] theorem Eff.pure_apply {α : Type} (a : α) (c : Ctx) :
    (pure a : Eff α) c = (c, Except.ok a) := rfl

@[simp] theorem call_apply {α : Type} (ev : Event) (r : Except JsError α) (c : Ctx) :
    call ev r c = (⟨c.miniProgram, c.trace ++ [ev]⟩, r) := rfl

@[simp] theorem setMiniProgram_apply (mp : MiniProgram) (c : Ctx) :
    setMiniProgram mp c = (⟨some mp, c.trace⟩, Except.ok ()) := rfl

/-- The returned object has one of the two shapes of lines 120-127 and
145-149; in the first, the statistics are the lengths of the four arrays
the element queries resolved to. -/
theorem result_cases (join : Str → Str → Str) (p d : Str) (port : Int) (o : Outcomes) :
    (∃ pd lv lt lb li,
        o.data = Except.ok pd ∧ o.view = Except.ok lv ∧ o.text = Except.ok lt
        ∧ o.button = Except.ok lb ∧ o.image = Except.ok li
        ∧ (previewAndCapture join p d port o).result =
          { success := true, pagePath := some p,
            screenshotPath := some (join d (screenshotFilename p o.now1)),
            dataPath := some (join d (dataFilename p o.now2)),
            elementStats := some ⟨lv.length, lt.length, lb.length, li.length,
              lv.length + lt.length + lb.length + li.length⟩,
            pageData := some pd, error := none, stack := none })
    ∨ (∃ e, (previewAndCapture join p d port o).result = failureResult e) := by
  rcases o with ⟨co, na, wa, n1, ex, mk, sc, da, v, t, b, i, n2, iso, wr, cl⟩
  cases co <;> first | exact Or.inr ⟨_, rfl⟩ | skip
  all_goals cases na <;> first | exact Or.inr ⟨_, rfl⟩ | skip
  all_goals cases wa <;> first | exact Or.inr ⟨_, rfl⟩ | skip
  all_goals cases ex <;> cases mk <;> first | exact Or.inr ⟨_, rfl⟩ | skip
  all_goals cases sc <;> first | exact Or.inr ⟨_, rfl⟩ | skip
  all_goals cases da <;> first | exact Or.inr ⟨_, rfl⟩ | skip
  all_goals cases v <;> first | exact Or.inr ⟨_, rfl⟩ | skip
  all_goals cases t <;> first | exact Or.inr ⟨_, rfl⟩ | skip
  all_goals cases b <;> first | exact Or.inr ⟨_, rfl⟩ | skip
  all_goals cases i <;> first | exact Or.inr ⟨_, rfl⟩ | skip
  all_goals cases wr <;> first | exact Or.inr ⟨_, rfl⟩ | skip
  all_goals exact Or.inl ⟨_, _, _, _, _, rfl, rfl, rfl, rfl, rfl, rfl⟩

/-- What the `try` block leaves in the state of the run: no call to `close`,
and the variable `miniProgram` set exactly when the connection was opened. -/
theorem tryBlock_ctx (join : Str → Str → Str) (p d : Str) (port : Int) (o : Outcomes) :
    (∀ m, Event.close m ∉ (tryBlock join p d port o ⟨none, []⟩).1.trace)
    ∧ (tryBlock join p d port o ⟨none, []⟩).1.miniProgram
        = (match o.connect with
           | Except.ok mp => some mp
           | Except.error _ => none) := by
  rcases o with ⟨co, na, wa, n1, ex, mk, sc, da, v, t, b, i, n2, iso, wr, cl⟩
  cases co <;> first | exact ⟨by simp [tryBlock], rfl⟩ | skip
  all_goals cases na <;> first | exact ⟨by simp [tryBlock], rfl⟩ | skip
  all_goals cases wa <;> first | exact ⟨by simp [tryBlock], rfl⟩ | skip
  all_goals cases ex <;> cases mk <;> first | exact ⟨by simp [tryBlock], rfl⟩ | skip
  all_goals cases sc <;> first | exact ⟨by simp [tryBlock], rfl⟩ | skip
  all_goals cases da <;> first | exact ⟨by simp [tryBlock], rfl⟩ | skip
  all_goals cases v <;> first | exact ⟨by simp [tryBlock], rfl⟩ | skip
  all_goals cases t <;> first | exact ⟨by simp [tryBlock], rfl⟩ | skip
  all_goals cases b <;> first | exact ⟨by simp [tryBlock], rfl⟩ | skip
  all_goals cases i <;> first | exact ⟨by simp [tryBlock], rfl⟩ | skip
  all_goals cases wr <;> exact ⟨by simp [tryBlock], rfl⟩

/-- An error raised by a stage is what the `try` block throws. -/
theorem tryBlock_raises (join : Str → Str → Str) (p d : Str) (port : Int) (o : Outcomes)
    (e : JsError) (h : Raises o e) :
    (tryBlock join p d port o ⟨none, []⟩).2 = Except.error e := by
  have dir : ∀ {x : Bool} {y : Except JsError Unit}, x = true ∨ y = Except.ok () →
      x = true ∨ (x = false ∧ y = Except.ok ()) := by
    intro x y hxy
    cases x <;> simp_all
  cases h with
  | connect h1 => simp [tryBlock, h1]
  | navigateTo h0 h1 =>
    obtain ⟨mp, hc⟩ := h0
    simp [tryBlock, *]
  | waitFor h0 h1 =>
    obtain ⟨⟨mp, hc⟩, hn⟩ := h0
    simp [tryBlock, *]
  | mkdirSync h0 h1 h2 =>
    obtain ⟨⟨⟨mp, hc⟩, hn⟩, hw⟩ := h0
    simp [tryBlock, *]
  | screenshot h0 h1 =>
    obtain ⟨⟨⟨⟨mp, hc⟩, hn⟩, hw⟩, hd⟩ := h0
    rcases dir hd with hd | ⟨hd, hm⟩ <;> simp [tryBlock, *]
  | data h0 h1 =>
    obtain ⟨⟨⟨⟨⟨mp, hc⟩, hn⟩, hw⟩, hd⟩, hs⟩ := h0
    rcases dir hd with hd | ⟨hd, hm⟩ <;> simp [tryBlock, *]
  | view h0 h1 =>
    obtain ⟨⟨⟨⟨⟨⟨mp, hc⟩, hn⟩, hw⟩, hd⟩, hs⟩, pd, hp⟩ := h0
    rcases dir hd with hd | ⟨hd, hm⟩ <;> simp [tryBlock, *]
  | text h0 h1 =>
    obtain ⟨⟨⟨⟨⟨⟨⟨mp, hc⟩, hn⟩, hw⟩, hd⟩, hs⟩, pd, hp⟩, lv, hv⟩ := h0
    rcases dir hd with hd | ⟨hd, hm⟩ <;> simp [tryBlock, *]
  | button h0 h1 =>
    obtain ⟨⟨⟨⟨⟨⟨⟨⟨mp, hc⟩, hn⟩, hw⟩, hd⟩, hs⟩, pd, hp⟩, lv, hv⟩, lt, ht⟩ := h0
    rcases dir hd with hd | ⟨hd, hm⟩ <;> simp [tryBlock, *]
  | image h0 h1 =>
    obtain ⟨⟨⟨⟨⟨⟨⟨⟨⟨mp, hc⟩, hn⟩, hw⟩, hd⟩, hs⟩, pd, hp⟩, lv, hv⟩, lt, ht⟩, lb, hb⟩ := h0
    rcases dir hd with hd | ⟨hd, hm⟩ <;> simp [tryBlock, *]
  | writeFileSync h0 h1 =>
    obtain ⟨⟨⟨⟨⟨⟨⟨⟨⟨⟨mp, hc⟩, hn⟩, hw⟩, hd⟩, hs⟩, pd, hp⟩, lv, hv⟩, lt, ht⟩, lb, hb⟩, li, hi⟩ := h0
    rcases dir hd with hd | ⟨hd, hm⟩ <;> simp [tryBlock, *]

/-- The function in terms of what the `try` block returns or throws. -/
theorem previewAndCapture_eq (join : Str → Str → Str) (p d : Str) (port : Int) (o : Outcomes) :
    previewAndCapture join p d port o =
      match tryBlock join p d port o ⟨none, []⟩ with
      | (c1, Except.ok result) => ⟨result, (finallyBlock o c1).trace⟩
      | (c1, Except.error error) =>
        ⟨(catchBlock error c1).2, (finallyBlock o (catchBlock error c1).1).trace⟩ := by
  unfold previewAndCapture
  split <;> rename_i h <;> simp only [h]

/-- A thrown error becomes the failure object. -/
theorem result_of_throw (join : Str → Str → Str) (p d : Str) (port : Int) (o : Outcomes)
    (e : JsError) (h : (tryBlock join p d port o ⟨none, []⟩).2 = Except.error e) :
    (previewAndCapture join p d port o).result = failureResult e := by
  rw [previewAndCapture_eq]
  generalize tryBlock join p d port o ⟨none, []⟩ = r at h
  obtain ⟨c1, r⟩ := r
  simp only at h
  subst h
  simp [catchBlock]

/-- The trace of a run: what the `try` block logged, the hint when the
`catch` block printed it, and the call to `close` when the variable
`miniProgram` is set. -/
theorem trace_shape (join : Str → Str → Str) (p d : Str) (port : Int) (o : Outcomes) :
    ∃ hint : List Event, (hint = [] ∨ hint = [Event.connRefusedHint]) ∧
      (previewAndCapture join p d port o).trace =
        (tryBlock join p d port o ⟨none, []⟩).1.trace ++ hint ++
          (match (tryBlock join p d port o ⟨none, []⟩).1.miniProgram with
           | some mp => [Event.close mp]
           | none => []) := by
  rw [previewAndCapture_eq]
  generalize tryBlock join p d port o ⟨none, []⟩ = r
  obtain ⟨⟨m, tr⟩, e | res⟩ := r
  · by_cases hi : includes e.message "ECONNREFUSED".data = true
    · refine ⟨[Event.connRefusedHint], Or.inr rfl, ?_⟩
      cases m <;> cases hc : o.close <;> simp [catchBlock, finallyBlock, hi, hc]
    · refine ⟨[], Or.inl rfl, ?_⟩
      cases m <;> cases hc : o.close <;> simp [catchBlock, finallyBlock, hi, hc]
  · refine ⟨[], Or.inl rfl, ?_⟩
    cases m <;> cases hc : o.close <;> simp [finallyBlock, hc]

/-- The result of a run does not depend on how `close` answers. -/
theorem result_close_irrelevant (join : Str → Str → Str) (p d : Str) (port : Int)
    (o : Outcomes) (cl : Except JsError Unit) :
    (previewAndCapture join p d port { o with close := cl }).result
      = (previewAndCapture join p d port o).result := by
  have ht : tryBlock join p d port { o with close := cl } = tryBlock join p d port o := rfl
  rw [previewAndCapture_eq, previewAndCapture_eq, ht]
  generalize tryBlock join p d port o ⟨none, []⟩ = r
  obtain ⟨c1, e | res⟩ := r <;> rfl

/-! ## The batch loop, unrolled -/

theorem batchLoop_eq (join : Str → Str → Str) (d : Str) (port : Int) (env : Nat → Outcomes)
    (length : Nat) : ∀ (rest : List Str) (i : Nat) (rs : List PreviewResult) (tr : List Event),
    batchLoop join d port env length rest i (rs, tr) =
      (rs ++ (List.enumFrom i rest).map
          (fun ip => (previewAndCapture join ip.2 d port (env ip.1)).result),
       tr ++ ((List.enumFrom i rest).map (iterationTrace join d port env length)).flatten) := by
  intro rest
  induction rest with
  | nil => intro i rs tr; simp [batchLoop]
  | cons q rest ih =>
    intro i rs tr
    simp only [batchLoop, List.enumFrom, List.map_cons, List.flatten_cons]
    rw [ih]
    by_cases hlt : (i : Int) < (length : Int) - 1 <;>
      simp [iterationTrace, hlt, List.append_assoc]

theorem previewMultiplePages_results_eq (join : Str → Str → Str) (pages : List Str) (d : Str)
    (port : Int) (env : Nat → Outcomes) :
    (previewMultiplePages join pages d port env).results =
      (List.enumFrom 0 pages).map
        (fun ip => (previewAndCapture join ip.2 d port (env ip.1)).result) := by
  simp [previewMultiplePages, batchLoop_eq]

theorem previewMultiplePages_trace_eq (join : Str → Str → Str) (pages : List Str) (d : Str)
    (port : Int) (env : Nat → Outcomes) :
    (previewMultiplePages join pages d port env).trace =
      ((List.enumFrom 0 pages).map (iterationTrace join d port env pages.length)).flatten := by
  simp [previewMultiplePages, batchLoop_eq]

theorem previewMultiplePages_counts (join : Str → Str → Str) (pages : List Str) (d : Str)
    (port : Int) (env : Nat → Outcomes) :
    (previewMultiplePages join pages d port env).successCount
      = ((previewMultiplePages join pages d port env).results.filter
          (fun r => r.success)).length
    ∧ (previewMultiplePages join pages d port env).failCount
      = (previewMultiplePages join pages d port env).results.length
        - (previewMultiplePages join pages d port env).successCount := by
  simp [previewMultiplePages]

/-! ## The claims -/

/-- C1: for every list of page paths and whatever each page's run does,
`previewMultiplePages` returns as many results as there are paths, the
`i`-th result is the one `previewAndCapture` produced for the `i`-th path,
and the calls of every page's run are part of the calls of the batch: a
failure at one page does not keep the later pages from being run. -/
theorem previewMultiplePages_results (join : Str → Str → Str) (pages : List Str) (d : Str)
    (port : Int) (env : Nat → Outcomes) :
    (previewMultiplePages join pages d port env).results.length = pages.length
    ∧ (∀ (i : Nat) (h : i < pages.length),
        (previewMultiplePages join pages d port env).results[i]?
          = some (previewAndCapture join pages[i] d port (env i)).result)
    ∧ (∀ (i : Nat) (h : i < pages.length),
        (previewAndCapture join pages[i] d port (env i)).trace
          <:+: (previewMultiplePages join pages d port env).trace) := by
  refine ⟨?_, ?_, ?_⟩
  · rw [previewMultiplePages_results_eq]
    simp [List.enumFrom_length]
  · intro i h
    rw [previewMultiplePages_results_eq, List.getElem?_map, List.getElem?_enumFrom,
      List.getElem?_eq_getElem h]
    simp
  · intro i h
    rw [previewMultiplePages_trace_eq]
    have hmem : (i, pages[i]) ∈ List.enumFrom 0 pages := by
      rw [List.mem_iff_getElem?]
      exact ⟨i, by rw [List.getElem?_enumFrom, List.getElem?_eq_getElem h]; simp⟩
    have hin := List.infix_of_mem_flatten
      (List.mem_map_of_mem (iterationTrace join d port env pages.length) hmem)
    exact List.IsInfix.trans (List.prefix_append _ _).isInfix hin

/-- C2, as stated, fails in its last sentence: when nothing listens on the
port, the returned `error` is the message `automator.connect` rejected
with, and that message does not contain `ECONNREFUSED`. -/
theorem refused_error_lacks_indicator :
    refusedOutcomes.connect = Except.error refusedError
    ∧ (previewAndCapture joinPlain "/pages/index/index".data "./screenshots".data 9420
        refusedOutcomes).result.success = false
    ∧ (previewAndCapture joinPlain "/pages/index/index".data "./screenshots".data 9420
        refusedOutcomes).result.error = some refusedError.message
    ∧ includes refusedError.message "ECONNREFUSED".data = false :=
  ⟨rfl, by decide, by decide, by decide⟩

/-- C2, amended: an error raised by any stage of the pipeline (connect,
navigate, settle wait, directory creation, screenshot, data query, the four
element queries, report write) does not escape `previewAndCapture`: the
function returns the failure object, whose `success` is false, whose `error`
is the message of the raised error and whose `stack` is its stack trace.
When the connection is refused, the returned `error` is the message
`connect` rejected with, nothing added: it contains `ECONNREFUSED` exactly
when that message does. -/
theorem previewAndCapture_catches (join : Str → Str → Str) (p d : Str) (port : Int)
    (o : Outcomes) (e : JsError) (h : Raises o e) :
    (previewAndCapture join p d port o).result = failureResult e
    ∧ (previewAndCapture join p d port o).result.success = false
    ∧ (previewAndCapture join p d port o).result.error = some e.message
    ∧ (previewAndCapture join p d port o).result.stack = some e.stack
    ∧ (o.connect = Except.error e →
        (previewAndCapture join p d port o).result.success = false
        ∧ ∀ msg, (previewAndCapture join p d port o).result.error = some msg →
            msg = e.message
            ∧ includes msg "ECONNREFUSED".data = includes e.message "ECONNREFUSED".data) := by
  have hr := result_of_throw join p d port o e (tryBlock_raises join p d port o e h)
  refine ⟨hr, ?_, ?_, ?_, ?_⟩
  · rw [hr]; rfl
  · rw [hr]; rfl
  · rw [hr]; rfl
  · intro _
    refine ⟨by rw [hr]; rfl, ?_⟩
    intro msg hmsg
    rw [hr] at hmsg
    have hm : e.message = msg := by
      simpa [failureResult] using hmsg
    exact ⟨hm.symm, by rw [hm]⟩

/-- A refused connection on port 9420 is caught and reported with the
message and the stack of the error `connect` rejected with. -/
theorem previewAndCapture_catches_witness :
    Raises refusedOutcomes refusedError
    ∧ (previewAndCapture joinPlain "/pages/index/index".data "./screenshots".data 9420
        refusedOutcomes).result.success = false
    ∧ (previewAndCapture joinPlain "/pages/index/index".data "./screenshots".data 9420
        refusedOutcomes).result.error = some refusedError.message
    ∧ (previewAndCapture joinPlain "/pages/index/index".data "./screenshots".data 9420
        refusedOutcomes).result.stack = some refusedError.stack :=
  ⟨Raises.connect rfl,
   (previewAndCapture_catches joinPlain "/pages/index/index".data "./screenshots".data 9420
      refusedOutcomes refusedError (Raises.connect rfl)).2.1,
   (previewAndCapture_catches joinPlain "/pages/index/index".data "./screenshots".data 9420
      refusedOutcomes refusedError (Raises.connect rfl)).2.2.1,
   (previewAndCapture_catches joinPlain "/pages/index/index".data "./screenshots".data 9420
      refusedOutcomes refusedError (Raises.connect rfl)).2.2.2.1⟩

/-- C3: `previewAndCapture` is a total function, so a request has exactly
one result; in it `screenshotPath` and `dataPath` are both present exactly
when `success` is true, both absent exactly when it is false, and never one
without the other. -/
theorem paths_iff_success (join : Str → Str → Str) (p d : Str) (port : Int) (o : Outcomes) :
    (((previewAndCapture join p d port o).result.screenshotPath.isSome = true
        ∧ (previewAndCapture join p d port o).result.dataPath.isSome = true)
      ↔ (previewAndCapture join p d port o).result.success = true)
    ∧ (((previewAndCapture join p d port o).result.screenshotPath = none
        ∧ (previewAndCapture join p d port o).result.dataPath = none)
      ↔ (previewAndCapture join p d port o).result.success = false)
    ∧ (previewAndCapture join p d port o).result.screenshotPath.isSome
        = (previewAndCapture join p d port o).result.dataPath.isSome := by
  rcases result_cases join p d port o with ⟨pd, lv, lt, lb, li, -, -, -, -, -, h⟩ | ⟨e, h⟩ <;>
    simp [h, failureResult]

/-- C4, as stated, fails: the result of a run whose navigation fails has no
`pagePath`. -/
theorem failed_result_lacks_pagePath :
    (previewAndCapture joinPlain "/pages/missing/missing".data "./screenshots".data 9420
        badPathOutcomes).result.success = false
    ∧ (previewAndCapture joinPlain "/pages/missing/missing".data "./screenshots".data 9420
        badPathOutcomes).result.pagePath = none
    ∧ (previewAndCapture joinPlain "/pages/missing/missing".data "./screenshots".data 9420
        badPathOutcomes).result.pagePath ≠ some "/pages/missing/missing".data := by
  decide

/-- C4, amended: a successful result carries the `pagePath` of its request;
a failed result is the failure object, which has the fields `success`,
`error` and `stack` only and so no `pagePath`. -/
theorem pagePath_iff_success (join : Str → Str → Str) (p d : Str) (port : Int) (o : Outcomes) :
    ((previewAndCapture join p d port o).result.success = true →
        (previewAndCapture join p d port o).result.pagePath = some p)
    ∧ ((previewAndCapture join p d port o).result.success = false →
        (previewAndCapture join p d port o).result.pagePath = none
        ∧ ∃ e, (previewAndCapture join p d port o).result = failureResult e) := by
  rcases result_cases join p d port o with ⟨pd, lv, lt, lb, li, -, -, -, -, -, h⟩ | ⟨e, h⟩
  · simp [h]
  · refine ⟨by simp [h, failureResult], fun _ => ⟨by simp [h, failureResult], e, h⟩⟩

/-- C5: when the connection was opened, `close` is called on it exactly
once and as the last call of the run, whatever the later stages and `close`
itself did; when the connection was not opened, `close` is not called; and
the returned result is the same whatever `close` answers. -/
theorem close_once_and_last (join : Str → Str → Str) (p d : Str) (port : Int) (o : Outcomes) :
    (∀ mp, o.connect = Except.ok mp →
        ∃ pre, (previewAndCapture join p d port o).trace = pre ++ [Event.close mp]
          ∧ ∀ m, Event.close m ∉ pre)
    ∧ (∀ e, o.connect = Except.error e →
        ∀ m, Event.close m ∉ (previewAndCapture join p d port o).trace)
    ∧ (∀ cl, (previewAndCapture join p d port { o with close := cl }).result
        = (previewAndCapture join p d port o).result) := by
  obtain ⟨hint, hh, ht⟩ := trace_shape join p d port o
  obtain ⟨hnc, hmp⟩ := tryBlock_ctx join p d port o
  have hhint : ∀ m, Event.close m ∉ hint := by
    intro m hm
    rcases hh with rfl | rfl <;> simp at hm
  refine ⟨?_, ?_, result_close_irrelevant join p d port o⟩
  · intro mp hc
    rw [hc] at hmp
    rw [hmp] at ht
    refine ⟨_, ht, ?_⟩
    intro m hm
    rcases List.mem_append.mp hm with hm | hm
    · exact hnc m hm
    · exact hhint m hm
  · intro e hc m hm
    rw [hc] at hmp
    rw [hmp] at ht
    rw [ht] at hm
    simp only [List.append_nil] at hm
    rcases List.mem_append.mp hm with hm | hm
    · exact hnc m hm
    · exact hhint m hm

/-- Closing fails after a successful run: `close` is still the last call,
and the result is that of the run in which closing succeeds. -/
theorem close_once_and_last_witness :
    (∃ pre, (previewAndCapture joinPlain "/pages/index/index".data "./screenshots".data 9420
          closeFailsOutcomes).trace = pre ++ [Event.close ⟨"ws://localhost:9420".data⟩]
        ∧ ∀ m, Event.close m ∉ pre)
    ∧ (previewAndCapture joinPlain "/pages/index/index".data "./screenshots".data 9420
          closeFailsOutcomes).result
        = (previewAndCapture joinPlain "/pages/index/index".data "./screenshots".data 9420
          okOutcomes).result :=
  ⟨(close_once_and_last joinPlain "/pages/index/index".data "./screenshots".data 9420
      closeFailsOutcomes).1 _ rfl,
   (close_once_and_last joinPlain "/pages/index/index".data "./screenshots".data 9420
      okOutcomes).2.2 _⟩

/-- C6, as stated, fails: in a successful run whose two clock readings
differ, the data file is not named after the stem of the screenshot. -/
theorem data_name_has_its_own_stem :
    (previewAndCapture joinPlain "/a".data "out".data 9420 okOutcomes).result.success = true
    ∧ (previewAndCapture joinPlain "/a".data "out".data 9420 okOutcomes).result.screenshotPath
        = some "out/_a_1700000000000.png".data
    ∧ (previewAndCapture joinPlain "/a".data "out".data 9420 okOutcomes).result.dataPath
        = some "out/_a_1700000000850.json".data
    ∧ pngToJson "_a_1700000000000.png".data = "_a_1700000000000.json".data
    ∧ "_a_1700000000850.json".data ≠ pngToJson "_a_1700000000000.png".data := by
  decide

/-- C6, amended: in a successful run the screenshot is named
`<sanitizedPath>_<t1>.png` and the data file `<sanitizedPath>_<t2>.json`,
where `t1` is the clock reading of line 59 and `t2` that of line 106; the
data file name is the screenshot file name with `.png` replaced by `.json`
exactly when the two readings are equal. -/
theorem dataFilename_scheme (join : Str → Str → Str) (p d : Str) (port : Int) (o : Outcomes) :
    ((previewAndCapture join p d port o).result.success = true →
        (previewAndCapture join p d port o).result.screenshotPath
          = some (join d (screenshotFilename p o.now1))
        ∧ (previewAndCapture join p d port o).result.dataPath
          = some (join d (dataFilename p o.now2)))
    ∧ screenshotFilename p o.now1
        = sanitize p ++ "_".data ++ numToString o.now1 ++ ".png".data
    ∧ dataFilename p o.now2
        = sanitize p ++ "_".data ++ numToString o.now2 ++ ".json".data
    ∧ (dataFilename p o.now2 = pngToJson (screenshotFilename p o.now1) ↔ o.now2 = o.now1) := by
  refine ⟨?_, by simp [screenshotFilename], by simp [dataFilename], ?_⟩
  · rcases result_cases join p d port o with ⟨pd, lv, lt, lb, li, -, -, -, -, -, h⟩ | ⟨e, h⟩
    · simp [h]
    · simp [h, failureResult]
  · rw [pngToJson_screenshotFilename]
    constructor
    · intro h
      exact (dataFilename_injective p p o.now2 o.now1 h).2
    · intro h
      rw [h]

/-- C7: the screenshot file name is the page path with every `/` replaced
by `_` (same length, other characters untouched), then `_`, the decimal
numeral of the clock reading, and `.png`; it contains no `/`.  For the path
`/pages/index/index` the screenshot and the data file names both begin with
`_pages_index_index_`.  The name is the one the pipeline hands to
`path.join` for the screenshot. -/
theorem screenshotFilename_spec (p : Str) (t : Int) :
    screenshotFilename p t = sanitize p ++ "_".data ++ numToString t ++ ".png".data
    ∧ (sanitize p).length = p.length
    ∧ (∀ i : Nat, (sanitize p)[i]? = (p[i]?).map (fun c => if c = '/' then '_' else c))
    ∧ numeralValue (numToString t) = t
    ∧ (∀ c ∈ numToString t, c.isDigit = true ∨ c = '-')
    ∧ '/' ∉ screenshotFilename p t
    ∧ (∀ t1 t2 : Int,
        "_pages_index_index_".data <+: screenshotFilename "/pages/index/index".data t1
        ∧ "_pages_index_index_".data <+: dataFilename "/pages/index/index".data t2)
    ∧ (∀ (join : Str → Str → Str) (d : Str) (port : Int) (o : Outcomes),
        (previewAndCapture join p d port o).result.success = true →
        (previewAndCapture join p d port o).result.screenshotPath
          = some (join d (screenshotFilename p o.now1))) := by
  refine ⟨by simp [screenshotFilename], sanitize_length p, sanitize_getElem? p,
    numeralValue_numToString t, numToString_chars t, screenshotFilename_no_slash p t, ?_, ?_⟩
  · intro t1 t2
    exact ⟨⟨numToString t1 ++ ".png".data, by simp [screenshotFilename, sanitize]⟩,
      ⟨numToString t2 ++ ".json".data, by simp [dataFilename, sanitize]⟩⟩
  · intro join d port o
    rcases result_cases join p d port o with ⟨pd, lv, lt, lb, li, -, -, -, -, -, h⟩ | ⟨e, h⟩
    · simp [h]
    · simp [h, failureResult]

/-- C8: for distinct page paths and distinct non-negative clock readings
the two screenshot file names differ, and so do the two data file names;
the sanitised path is a function of the page path alone. -/
theorem filenames_distinct (p1 p2 : Str) (t1 t2 : Int) (_hp : p1 ≠ p2) (ht : t1 ≠ t2)
    (_h1 : 0 ≤ t1) (_h2 : 0 ≤ t2) :
    screenshotFilename p1 t1 ≠ screenshotFilename p2 t2
    ∧ dataFilename p1 t1 ≠ dataFilename p2 t2
    ∧ sanitize p1 = p1.map (fun c => if c = '/' then '_' else c)
    ∧ sanitize p2 = p2.map (fun c => if c = '/' then '_' else c) :=
  ⟨fun h => ht (screenshotFilename_injective p1 p2 t1 t2 h).2,
   fun h => ht (dataFilename_injective p1 p2 t1 t2 h).2, rfl, rfl⟩

/-- Two pages of one batch, previewed two and a half seconds apart. -/
theorem filenames_distinct_witness :
    "/pages/index/index".data ≠ "/pages/list/list".data
    ∧ (1700000000000 : Int) ≠ 1700000002500
    ∧ screenshotFilename "/pages/index/index".data 1700000000000
        ≠ screenshotFilename "/pages/list/list".data 1700000002500
    ∧ dataFilename "/pages/index/index".data 1700000000000
        ≠ dataFilename "/pages/list/list".data 1700000002500 :=
  ⟨by decide, by decide,
   (filenames_distinct "/pages/index/index".data "/pages/list/list".data 1700000000000
      1700000002500 (by decide) (by decide) (by decide) (by decide)).1,
   (filenames_distinct "/pages/index/index".data "/pages/list/list".data 1700000000000
      1700000002500 (by decide) (by decide) (by decide) (by decide)).2.1⟩

/-- C9: when the first argument contains a comma, the exit code is 0
exactly when every page's result has `success = true` and 1 exactly when
some page's result has `success = false`; the two printed counts add up to
the number of results.  For the argument `/a,/b`, when `/a` succeeds and
`/b` fails the exit code is 1 and the summary counts one success and one
failure. -/
theorem batch_exit_code (join : Str → Str → Str) (parseInt : Str → Option Int) (arg : Str)
    (more : List Str) (env : Nat → Outcomes) (hcomma : includes arg ",".data = true) :
    ((cliMain join parseInt (arg :: more) env).exitCode = 0 ↔
        ∀ r ∈ (previewMultiplePages join ((split ',' arg).map trim) (outputDirArg more)
          (wsPortArg parseInt more) env).results, r.success = true)
    ∧ ((cliMain join parseInt (arg :: more) env).exitCode = 1 ↔
        ∃ r ∈ (previewMultiplePages join ((split ',' arg).map trim) (outputDirArg more)
          (wsPortArg parseInt more) env).results, r.success = false)
    ∧ (previewMultiplePages join ((split ',' arg).map trim) (outputDirArg more)
          (wsPortArg parseInt more) env).successCount
        + (previewMultiplePages join ((split ',' arg).map trim) (outputDirArg more)
          (wsPortArg parseInt more) env).failCount
        = (previewMultiplePages join ((split ',' arg).map trim) (outputDirArg more)
          (wsPortArg parseInt more) env).results.length
    ∧ (arg = "/a,/b".data →
        (previewAndCapture join "/a".data (outputDirArg more) (wsPortArg parseInt more)
          (env 0)).result.success = true →
        (previewAndCapture join "/b".data (outputDirArg more) (wsPortArg parseInt more)
          (env 1)).result.success = false →
        (cliMain join parseInt (arg :: more) env).exitCode = 1
        ∧ (previewMultiplePages join ((split ',' arg).map trim) (outputDirArg more)
            (wsPortArg parseInt more) env).successCount = 1
        ∧ (previewMultiplePages join ((split ',' arg).map trim) (outputDirArg more)
            (wsPortArg parseInt more) env).failCount = 1) := by
  have hne : ¬ (arg = "--help".data ∨ arg = "-h".data) := by
    rintro (rfl | rfl) <;> exact absurd hcomma (by decide)
  have hexit : (cliMain join parseInt (arg :: more) env).exitCode =
      if ((previewMultiplePages join ((split ',' arg).map trim) (outputDirArg more)
          (wsPortArg parseInt more) env).results.all (fun r => r.success)) = true
      then 0 else 1 := by
    simp only [cliMain, if_neg hne, hcomma, if_true]
  obtain ⟨hsc, hfc⟩ := previewMultiplePages_counts join ((split ',' arg).map trim)
    (outputDirArg more) (wsPortArg parseInt more) env
  refine ⟨?_, ?_, ?_, ?_⟩
  · rw [hexit]
    by_cases hall : ((previewMultiplePages join ((split ',' arg).map trim) (outputDirArg more)
          (wsPortArg parseInt more) env).results.all (fun r => r.success)) = true
    · simp only [if_pos hall, true_iff]
      exact List.all_eq_true.mp hall
    · simp only [if_neg hall]
      constructor
      · intro h; exact absurd h (by decide)
      · intro h; exact absurd (List.all_eq_true.mpr h) hall
  · rw [hexit]
    by_cases hall : ((previewMultiplePages join ((split ',' arg).map trim) (outputDirArg more)
          (wsPortArg parseInt more) env).results.all (fun r => r.success)) = true
    · simp only [if_pos hall]
      constructor
      · intro h; exact absurd h (by decide)
      · rintro ⟨r, hr, hf⟩
        have := List.all_eq_true.mp hall r hr
        rw [hf] at this
        exact absurd this (by decide)
    · simp only [if_neg hall, true_iff]
      by_contra hno
      apply hall
      rw [List.all_eq_true]
      intro r hr
      by_contra hs
      exact hno ⟨r, hr, by simpa using hs⟩
  · rw [hfc, hsc]
    have := List.length_filter_le (fun r : PreviewResult => r.success)
      (previewMultiplePages join ((split ',' arg).map trim) (outputDirArg more)
          (wsPortArg parseInt more) env).results
    omega
  · intro harg h0 h1
    subst harg
    have hpages : (split ',' "/a,/b".data).map trim = ["/a".data, "/b".data] := by decide
    have hres : (previewMultiplePages join ((split ',' "/a,/b".data).map trim)
        (outputDirArg more) (wsPortArg parseInt more) env).results =
        [(previewAndCapture join "/a".data (outputDirArg more) (wsPortArg parseInt more)
            (env 0)).result,
         (previewAndCapture join "/b".data (outputDirArg more) (wsPortArg parseInt more)
            (env 1)).result] := by
      rw [previewMultiplePages_results_eq, hpages]
      rfl
    refine ⟨?_, ?_, ?_⟩
    · rw [hexit, hres]
      simp [h0, h1]
    · rw [hsc, hres]
      simp [h0, h1]
    · rw [hfc, hsc, hres]
      simp [h0, h1]

/-- The batch `/a,/b` in which `/a` succeeds and `/b` is refused. -/
theorem batch_exit_code_witness :
    includes "/a,/b".data ",".data = true
    ∧ (previewAndCapture joinPlain "/a".data "./screenshots".data 9420
        (firstOnlyEnv 0)).result.success = true
    ∧ (previewAndCapture joinPlain "/b".data "./screenshots".data 9420
        (firstOnlyEnv 1)).result.success = false
    ∧ (cliMain joinPlain parseNone ["/a,/b".data] firstOnlyEnv).exitCode = 1
    ∧ (previewMultiplePages joinPlain ["/a".data, "/b".data] "./screenshots".data 9420
        firstOnlyEnv).successCount = 1
    ∧ (previewMultiplePages joinPlain ["/a".data, "/b".data] "./screenshots".data 9420
        firstOnlyEnv).failCount = 1 :=
  ⟨by decide, by decide, by decide,
   ((batch_exit_code joinPlain parseNone "/a,/b".data [] firstOnlyEnv (by decide)).2.2.2
      rfl (by decide) (by decide)).1,
   ((batch_exit_code joinPlain parseNone "/a,/b".data [] firstOnlyEnv (by decide)).2.2.2
      rfl (by decide) (by decide)).2.1,
   ((batch_exit_code joinPlain parseNone "/a,/b".data [] firstOnlyEnv (by decide)).2.2.2
      rfl (by decide) (by decide)).2.2⟩

/-- C10: when a result carries `elementStats`, its `total` is the sum of
`view`, `text`, `button` and `image`, and each of the four is the length of
the array the query for that selector resolved to, a natural number. -/
theorem elementStats_total (join : Str → Str → Str) (p d : Str) (port : Int) (o : Outcomes)
    (es : ElementStats) (h : (previewAndCapture join p d port o).result.elementStats = some es) :
    es.total = es.view + es.text + es.button + es.image
    ∧ ∃ lv lt lb li, o.view = Except.ok lv ∧ o.text = Except.ok lt
        ∧ o.button = Except.ok lb ∧ o.image = Except.ok li
        ∧ es.view = lv.length ∧ es.text = lt.length
        ∧ es.button = lb.length ∧ es.image = li.length := by
  rcases result_cases join p d port o with
    ⟨pd, lv, lt, lb, li, -, hv, ht, hb, hi, hr⟩ | ⟨e, hr⟩
  · rw [hr] at h
    simp only [Option.some.injEq] at h
    subst h
    exact ⟨rfl, lv, lt, lb, li, hv, ht, hb, hi, rfl, rfl, rfl, rfl⟩
  · rw [hr] at h
    simp [failureResult] at h

/-- A page with two `view`, one `text`, no `button` and one `image`. -/
theorem elementStats_total_witness :
    (previewAndCapture joinPlain "/pages/index/index".data "./screenshots".data 9420
        okOutcomes).result.elementStats = some ⟨2, 1, 0, 1, 4⟩
    ∧ (4 : Nat) = 2 + 1 + 0 + 1 :=
  ⟨by decide,
   (elementStats_total joinPlain "/pages/index/index".data "./screenshots".data 9420
      okOutcomes ⟨2, 1, 0, 1, 4⟩ (by decide)).1⟩

end AutoPreview
